import Mathlib

/-!
Shallow embedding of the conversation core of `mtlblog_chatbot.py`
(the chatMTL repository): the `ChatbotInterface` state machine
(`get_response`, `send_message`, `fetch_bot_response`, `prompt_category`),
its message counters, and the CSV session recorder (`save_to_csv`).

Modelling conventions:
- the Python state strings become the inductive type `BotState`;
- wall-clock times (datetime.now) are abstract naturals supplied by the
  caller, so a session duration is a subtraction of naturals;
- the Tk chat display is modelled by `Session.emitted`, the list of bot
  messages passed to `display_message` with sender Bot;
- the recorder handoff is `Session.savedRecords`, the rows handed to
  `save_to_csv`; the CSV file itself is `Option (List (List String))`,
  with `none` for a missing `session_data.csv`;
- `self.destroy()` in the exit branch is recorded by `Session.destroyed`;
- external collaborators (the category list, `load_from_txt`,
  `chat_with_llm`) are parameters collected in `Env`;
- strings are Lean strings; Python lower/title/strip are modelled on the
  ASCII alphabet, which covers every input the claims mention.
-/

namespace ChatMTL

/-- The conversation states stored in `ChatbotInterface.state`
(the Python code keys them as strings, for example "ask_name"). -/
inductive BotState where
  | askName
  | askDob
  | categoryPrompt
  | questionPrompt
  | moreHelpPrompt
  | captureFeedback
  | captureDetails
  | exit
deriving DecidableEq, Repr

/-- Character list leads another: helper for substring containment. -/
def charsLead : List Char → List Char → Bool
  | [], _ => true
  | _ :: _, [] => false
  | a :: as, b :: bs => a == b && charsLead as bs

/-- needle occurs somewhere inside the character list. -/
def charsWithin (needle : List Char) : List Char → Bool
  | [] => needle.isEmpty
  | b :: t => charsLead needle (b :: t) || charsWithin needle t

/-- Python `needle in hay` on strings: substring containment. -/
def strContains (hay needle : String) : Bool :=
  charsWithin needle.data hay.data

/-- Python `s.lower()` on the ASCII alphabet. -/
def lowerStr (s : String) : String := ⟨s.data.map Char.toLower⟩

/-- The ASCII whitespace stripped by Python str.strip. -/
def isSpaceChar (c : Char) : Bool :=
  c == ' ' || c == '\t' || c == '\n' || c == '\r' || c == '\x0b' || c == '\x0c'

/-- Python `s.strip()` on ASCII whitespace. -/
def trimChars (cs : List Char) : List Char :=
  ((cs.dropWhile isSpaceChar).reverse.dropWhile isSpaceChar).reverse

/-- Split a character list on the dash separator. -/
def splitOnDash : List Char → List (List Char)
  | [] => [[]]
  | c :: cs =>
    if c == '-' then [] :: splitOnDash cs
    else
      match splitOnDash cs with
      | [] => [[c]]
      | g :: gs => (c :: g) :: gs

/-- Decimal value of a digit run. -/
def digitsToNat (cs : List Char) : Nat :=
  cs.foldl (fun a c => a * 10 + (c.toNat - 48)) 0

/-- Digits of a Python int literal after the sign: decimal digits with a
single underscore allowed between two digits. -/
def pyDigitsGo (acc : Nat) : List Char → Option Nat
  | [] => some acc
  | c :: cs =>
    if c.isDigit then pyDigitsGo (acc * 10 + (c.toNat - 48)) cs
    else if c == '_' then
      match cs with
      | d :: ds =>
        if d.isDigit then pyDigitsGo (acc * 10 + (d.toNat - 48)) ds else none
      | [] => none
    else none

/-- Nonempty digit run for Python int parsing. -/
def pyDigits : List Char → Option Nat
  | [] => none
  | c :: cs => if c.isDigit then pyDigitsGo (c.toNat - 48) cs else none

/-- Python `int(s)`: strip surrounding whitespace, optional sign, decimal
digits; `none` models the ValueError. -/
def pyInt (s : String) : Option Int :=
  match trimChars s.data with
  | '+' :: cs => (pyDigits cs).map Int.ofNat
  | '-' :: cs => (pyDigits cs).map fun n => -(Int.ofNat n)
  | cs => (pyDigits cs).map Int.ofNat

/-- Gregorian leap year, as the datetime module computes it. -/
def isLeap (y : Nat) : Bool :=
  y % 4 == 0 && (y % 100 != 0 || y % 400 == 0)

/-- Days in a month of a given year, as validated by datetime. -/
def daysInMonth (y m : Nat) : Nat :=
  if m == 2 then (if isLeap y then 29 else 28)
  else if m == 4 || m == 6 || m == 9 || m == 11 then 30
  else 31

/-- Python `datetime.strptime(s, "%Y-%m-%d")` succeeding: the regex built
by _strptime demands exactly four digits for the year, one or two digits
for month and day, literal dashes, a full match, and then the datetime
constructor demands year at least 1, month 1..12 and a day valid for that
month. -/
def validDate (s : String) : Bool :=
  match splitOnDash s.data with
  | [ys, ms, ds] =>
    (ys.length == 4 && ys.all Char.isDigit) &&
    ((ms.length == 1 || ms.length == 2) && ms.all Char.isDigit) &&
    ((ds.length == 1 || ds.length == 2) && ds.all Char.isDigit) &&
    (let y := digitsToNat ys
     let m := digitsToNat ms
     let d := digitsToNat ds
     (y != 0) && (m != 0) && decide (m ≤ 12) && (d != 0) &&
       decide (d ≤ daysInMonth y m))
  | _ => false

/-- Python str.title restricted to ASCII letters: uppercase a letter that
does not follow a letter, lowercase one that does. -/
def titleChars : Bool → List Char → List Char
  | _, [] => []
  | prev, c :: cs =>
    if c.isAlpha then
      (if prev then c.toLower else c.toUpper) :: titleChars true cs
    else
      c :: titleChars false cs

/-- Python `s.title()` on a string. -/
def titleCase (s : String) : String := ⟨titleChars false s.data⟩

/-- The human-readable label of a category identifier:
`cat.replace("-", " ").title()`. -/
def displayLabel (cat : String) : String :=
  titleCase ⟨cat.data.map fun c => if c == '-' then ' ' else c⟩

/-- One row handed to the session recorder by `save_to_csv`. -/
structure SessionRecord where
  sessionId : String := ""
  timestamp : Nat := 0
  userName : Option String := none
  userDob : Option String := none
  sessionDuration : Nat := 0
  selectedCategory : String := "N/A"
  userMsgCount : Nat := 0
  botMsgCount : Nat := 0
  feedback : String := "bad"
  detailedFeedback : Option String := none
deriving DecidableEq, Repr, Inhabited

/-- External collaborators: the fixed category enumeration, the category
store `load_from_txt`, and the completion collaborator `chat_with_llm`
(reference text and question to reply). -/
structure Env where
  categories : List String
  store : String → String
  llm : String → String → String

/-- The mutable fields initialised in `ChatbotInterface.__init__`, plus
the observable effects: `emitted` collects the bot messages displayed and
`savedRecords` the rows handed to `save_to_csv`; `destroyed` records the
`self.destroy()` call of the exit branch. -/
structure Session where
  data : String := ""
  startTime : Option Nat := none
  selectedCategory : Option String := none
  sessionId : String := ""
  userMessageCount : Nat := 0
  botMessageCount : Nat := 0
  userName : Option String := none
  userDob : Option String := none
  state : BotState := .askName
  feedback : Option String := none
  detailedFeedback : Option String := none
  emitted : List String := []
  savedRecords : List SessionRecord := []
  destroyed : Bool := false
deriving Repr

/-- The greeting shown on startup. -/
def greetingText : String :=
  "Bonjour! 🍁 Welcome to chatMTL, your digital gateway to all things Montreal.\nMay I have your name?"

/-- `greeting_message`: counts and displays the greeting. -/
def greetingMessage (s : Session) : Session :=
  { s with botMessageCount := s.botMessageCount + 1
           emitted := s.emitted ++ [greetingText] }

/-- A fresh `ChatbotInterface`: default fields, greeting displayed. -/
def initSession : Session := greetingMessage {}

/-- The menu text built by `prompt_category`: categories 1-indexed with
human-readable labels. -/
def categoryMenu (env : Env) : String :=
  let lines := env.categories.enum.map fun p =>
    toString (p.1 + 1) ++ ". " ++ displayLabel p.2
  "Montreal is bustling with stories! Which alley of MTL Blog would you like to explore today?\n"
    ++ String.intercalate ("\n") lines

/-- `prompt_category`: counts one bot message and displays the menu. -/
def promptCategory (env : Env) (s : Session) : Session :=
  { s with botMessageCount := s.botMessageCount + 1
           emitted := s.emitted ++ [categoryMenu env] }

/-- `save_to_csv` builds this row for the csv DictWriter. -/
def mkRecord (s : Session) (t dur : Nat) : SessionRecord :=
  { sessionId := s.sessionId
    timestamp := t
    userName := s.userName
    userDob := s.userDob
    sessionDuration := dur
    selectedCategory := (s.selectedCategory).getD ("N/A")
    userMsgCount := s.userMessageCount
    botMsgCount := s.botMessageCount
    feedback := if s.feedback == some ("yes") then ("good") else ("bad")
    detailedFeedback := s.detailedFeedback }

/-- The session-side effect of `save_to_csv`: hand one finalized row to
the recorder. -/
def saveToCsv (s : Session) (t dur : Nat) : Session :=
  { s with savedRecords := s.savedRecords ++ [mkRecord s t dur] }

/-- `get_response`: one turn of the conversation state machine, at
wall-clock time `t`.  Returns the updated interface state and the
response string returned to `fetch_bot_response`. -/
def getResponse (env : Env) (t : Nat) (s : Session) (m : String) : Session × String :=
  match s.state with
  | .askName =>
    ({ s with userName := some m
              state := .askDob
              botMessageCount := s.botMessageCount + 1 },
     "Thanks, " ++ m ++ ". Montreal loves a celebration! When\x27s yours? (DOB in YYYY-MM-DD):")
  | .askDob =>
    if validDate m then
      let s1 := { s with userDob := some m, state := .categoryPrompt }
      (promptCategory env s1, "Choose a category:")
    else
      ({ s with botMessageCount := s.botMessageCount + 1 },
       "Oops! Seems we got our dates jumbled. Montreal loves precision!\nCould you share your birthday again in YYYY-MM-DD format?")
  | .categoryPrompt =>
    match pyInt m with
    | some n =>
      let selectedIndex : Int := n - 1
      if 0 ≤ selectedIndex ∧ selectedIndex < (env.categories.length : Int) then
        let selectedCategory := env.categories.getD selectedIndex.toNat ("")
        let label := displayLabel selectedCategory
        ({ s with data := env.store selectedCategory
                  state := .questionPrompt
                  selectedCategory := some label
                  botMessageCount := s.botMessageCount + 1 },
         "Ready to explore Montreal\x27s " ++ label ++ " scene? 🍁\nAsk away, and I\x27ll guide you through!")
      else
        ({ s with botMessageCount := s.botMessageCount + 1 },
         "Oops! Seems like a little detour. 🌆\nPlease choose a number that matches our categories list.")
    | none =>
      ({ s with botMessageCount := s.botMessageCount + 1 },
       "Whoops! That\x27s not on our Montreal map. 🗺\nPlease enter a valid number for the category you\x27re interested in.")
  | .questionPrompt =>
    ({ s with state := .moreHelpPrompt, botMessageCount := s.botMessageCount + 1 },
     env.llm s.data m ++ "\n" ++ "Got more Montreal curiosities? 🍁 Let me know how I can assist further!")
  | .moreHelpPrompt =>
    if strContains (lowerStr m) "yes" then
      ({ s with state := .questionPrompt, botMessageCount := s.botMessageCount + 1 },
       "Anything else about " ++ (s.selectedCategory).getD ("None")
         ++ " in Montreal that piques your interest? 🌆 Share it with me!")
    else if strContains (lowerStr m) "no" then
      ({ s with state := .captureFeedback, botMessageCount := s.botMessageCount + 1 },
       "It\x27s been great chatting with you about Montreal! 😊 Was our conversation helpful?")
    else
      ({ s with botMessageCount := s.botMessageCount + 1 },
       "Kindly respond with a simple \x27yes\x27 or \x27no\x27.")
  | .captureFeedback =>
    let fb := lowerStr m
    if fb = "yes" ∨ fb = "no" then
      if fb = "yes" then
        ({ s with feedback := some fb
                  state := .captureDetails
                  botMessageCount := s.botMessageCount + 1 },
         "Thank you for the positive feedback! Can you please tell me more about what you did like?")
      else
        ({ s with feedback := some fb
                  state := .captureDetails
                  botMessageCount := s.botMessageCount + 1 },
         "Regretfully, I missed the mark this time. Can you please tell me where I can improve?")
    else
      ({ s with botMessageCount := s.botMessageCount + 1 },
       "Kindly respond with a simple \x27yes\x27 or \x27no\x27 for feedback.")
  | .captureDetails =>
    let s1 := { s with detailedFeedback := some (lowerStr m) }
    let s2 := saveToCsv s1 t (t - (s1.startTime).getD 0)
    ({ s2 with state := .exit },
     "Thank you for the feedback. Your interactions help me continuously improve and provide a better experience. I deeply appreciate your time and feedback.")
  | .exit =>
    ({ s with destroyed := true }, "")

/-- `fetch_bot_response`: run `get_response` and display the reply. -/
def fetchBotResponse (env : Env) (t : Nat) (s : Session) (m : String) : Session :=
  let r := getResponse env t s m
  { r.1 with emitted := r.1.emitted ++ [r.2] }

/-- `send_message`: an empty entry is ignored outright; otherwise the user
turn is counted at submission time, the clock starts on the first turn,
and the message is processed. -/
def sendMessage (env : Env) (t : Nat) (s : Session) (m : String) : Session :=
  if m = "" then s
  else
    fetchBotResponse env t
      { s with userMessageCount := s.userMessageCount + 1
               startTime := some ((s.startTime).getD t) }
      m

/-- Submit a list of inputs in order, all at time `t`. -/
def runInputs (env : Env) (t : Nat) (s : Session) (inputs : List String) : Session :=
  inputs.foldl (fun acc m => sendMessage env t acc m) s

/-- The CSV header row written on first creation of session_data.csv. -/
def csvHeader : List String :=
  ["session_id", "timestamp", "user_name", "user_dob", "session_duration",
   "selected_category", "user_msg_count", "bot_msg_count", "feedback", "detailed_feedback"]

/-- The file handling of `save_to_csv`: if the file is absent it is
created with the header row before the data row; otherwise the data row
is appended without rewriting the header. -/
def saveRow (file : Option (List (List String))) (row : List String) : List (List String) :=
  match file with
  | none => [csvHeader, row]
  | some rows => rows ++ [row]

/-- Repeated `save_to_csv` appends starting from a given file state. -/
def saveRows (file : Option (List (List String))) (rows : List (List String)) :
    Option (List (List String)) :=
  rows.foldl (fun f r => some (saveRow f r)) file

/-- The cells of a finalized row as the csv module writes them
(None becomes an empty cell). -/
def recordRow (r : SessionRecord) : List String :=
  [r.sessionId, toString r.timestamp, (r.userName).getD (""), (r.userDob).getD (""),
   toString r.sessionDuration, r.selectedCategory, toString r.userMsgCount,
   toString r.botMsgCount, r.feedback, (r.detailedFeedback).getD ("")]

/-- The category enumeration of the main script. -/
def categories9 : List String :=
  ["news", "eat-drink", "things-to-do", "travel", "sports", "lifestyle",
   "money", "deals", "real-estate"]

/-- An environment over the nine categories with arbitrary collaborators. -/
def mkEnv9 (store : String → String) (llm : String → String → String) : Env :=
  { categories := categories9, store := store, llm := llm }

/-- The stub environment of the end-to-end scenario: nine categories and a
completion collaborator that always answers "Nothing notable.". -/
def stubEnv : Env := mkEnv9 (fun _ => "") (fun _ _ => "Nothing notable.")

/-- The input script of the end-to-end scenario. -/
def e2eInputs : List String :=
  ["Alice", "1990-05-14", "1", "What happened downtown?", "no", "yes",
   "It was helpful and concise"]

/-- One pass of the help loop: answer yes at `MoreHelpPrompt`, then ask the
question `q` at `QuestionPrompt`, landing back at `MoreHelpPrompt`. -/
def yesLoop (env : Env) (t : Nat) (q : String) (s : Session) : Session :=
  (getResponse env t (getResponse env t s ("yes")).1 q).1

/-! ## Helper lemmas -/

lemma getResponse_destroyed (env : Env) (t : Nat) (s : Session) (m : String)
    (h : s.destroyed = false) :
    ((getResponse env t s m).1.destroyed = true ↔ s.state = .exit) := by
  cases hs : s.state <;>
    simp only [getResponse, hs] <;>
    (repeat' split) <;>
    simp_all [promptCategory, saveToCsv]

lemma getResponse_state_questionPrompt (env : Env) (t : Nat) (s : Session) (m : String)
    (h : s.state = .questionPrompt) :
    (getResponse env t s m).1.state = .moreHelpPrompt ∧
    (getResponse env t s m).1.destroyed = s.destroyed := by
  simp [getResponse, h]

lemma getResponse_moreHelp_yes (env : Env) (t : Nat) (s : Session) (m : String)
    (h : s.state = .moreHelpPrompt) (hy : strContains (lowerStr m) "yes" = true) :
    (getResponse env t s m).1.state = .questionPrompt ∧
    (getResponse env t s m).1.destroyed = s.destroyed := by
  simp [getResponse, h, hy]

lemma yesLoop_invariant (env : Env) (t : Nat) (q : String) (s : Session)
    (h : s.state = .moreHelpPrompt) (hd : s.destroyed = false) :
    (yesLoop env t q s).state = .moreHelpPrompt ∧
    (yesLoop env t q s).destroyed = false := by
  have h1 := getResponse_moreHelp_yes env t s ("yes") h (by decide)
  have h2 := getResponse_state_questionPrompt env t (getResponse env t s ("yes")).1 q h1.1
  exact ⟨h2.1, by rw [yesLoop, h2.2, h1.2, hd]⟩

lemma yesLoop_iterate (env : Env) (t : Nat) (q : String) (s : Session)
    (h : s.state = .moreHelpPrompt) (hd : s.destroyed = false) (N : Nat) :
    ((yesLoop env t q)^[N] s).state = .moreHelpPrompt ∧
    ((yesLoop env t q)^[N] s).destroyed = false := by
  induction N with
  | zero => exact ⟨h, hd⟩
  | succ n ih =>
    rw [Function.iterate_succ_apply']
    exact yesLoop_invariant env t q _ ih.1 ih.2

lemma saveRows_some (rows acc : List (List String)) :
    saveRows (some acc) rows = some (acc ++ rows) := by
  induction rows generalizing acc with
  | nil => simp [saveRows]
  | cons r rs ih =>
    have step : saveRows (some acc) (r :: rs) = saveRows (some (acc ++ [r])) rs := rfl
    rw [step, ih]
    simp

lemma getResponse_userCount (env : Env) (t : Nat) (s : Session) (m : String) :
    (getResponse env t s m).1.userMessageCount = s.userMessageCount := by
  cases hs : s.state <;> simp only [getResponse, hs] <;> (repeat' split) <;>
    simp [promptCategory, saveToCsv]

lemma getResponse_botCount (env : Env) (t : Nat) (s : Session) (m : String) :
    (getResponse env t s m).1.botMessageCount =
      s.botMessageCount +
        (if s.state = BotState.captureDetails ∨ s.state = BotState.exit then 0 else 1) := by
  cases hs : s.state <;> simp only [getResponse, hs] <;> (repeat' split) <;>
    simp_all [promptCategory, saveToCsv]

lemma getResponse_emitted (env : Env) (t : Nat) (s : Session) (m : String) :
    (getResponse env t s m).1.emitted =
      if s.state = BotState.askDob ∧ validDate m = true then
        s.emitted ++ [categoryMenu env]
      else s.emitted := by
  cases hs : s.state <;> simp only [getResponse, hs] <;> (repeat' split) <;>
    simp_all [promptCategory, saveToCsv]

lemma fetchBotResponse_effects (env : Env) (t : Nat) (s : Session) (m : String) :
    (fetchBotResponse env t s m).userMessageCount = s.userMessageCount ∧
    (fetchBotResponse env t s m).botMessageCount = (getResponse env t s m).1.botMessageCount ∧
    (fetchBotResponse env t s m).emitted.length =
      (getResponse env t s m).1.emitted.length + 1 := by
  refine ⟨?_, ?_, ?_⟩ <;> simp [fetchBotResponse, getResponse_userCount]

/-! ## Claim theorems -/

/-- C4: `get_response` is a total function of the session and the input
(malformed input is handled by re-prompting, never by an exception: every
ValueError the parsing can raise is caught in the source), and the
shutdown path that tears the session down (`self.destroy()`) is taken
exactly when the machine is invoked in the terminal exit state. -/
theorem C4_fail_iff_terminated (env : Env) (t : Nat) (s : Session) (m : String)
    (h : s.destroyed = false) :
    ((getResponse env t s m).1.destroyed = true ↔ s.state = .exit) ∧
    (s.state ≠ .exit → (getResponse env t s m).1.destroyed = false) := by
  have hiff := getResponse_destroyed env t s m h
  refine ⟨hiff, fun hne => ?_⟩
  cases hdd : (getResponse env t s m).1.destroyed with
  | false => rfl
  | true => exact absurd (hiff.mp hdd) hne

/-- C4 witness: in the exit state the shutdown flag is set; in any other
state it is not. -/
theorem C4_witness :
    (getResponse stubEnv 0 { state := BotState.exit } "x").1.destroyed = true ∧
    (getResponse stubEnv 0 { state := BotState.askName } "x").1.destroyed = false :=
  ⟨(C4_fail_iff_terminated stubEnv 0 { state := BotState.exit } "x" rfl).1.mpr rfl,
   (C4_fail_iff_terminated stubEnv 0 { state := BotState.askName } "x" rfl).2 (by decide)⟩

/-- C5: in AskDateOfBirth the input is accepted exactly when it parses as
a strict YYYY-MM-DD calendar date; "2025-02-30", "not-a-date" and
"2025/02/01" are rejected with the state staying put, while "1990-05-14"
is accepted, stored, and the machine advances to CategoryPrompt emitting
the category menu. -/
theorem C5_date_validation (env : Env) (t : Nat) (s : Session) (h : s.state = .askDob) :
    (∀ m, ((getResponse env t s m).1.state = .categoryPrompt ↔ validDate m = true)) ∧
    (∀ m, validDate m = false → (getResponse env t s m).1.state = .askDob) ∧
    validDate ("2025-02-30") = false ∧
    validDate ("not-a-date") = false ∧
    validDate ("2025/02/01") = false ∧
    validDate ("1990-05-14") = true ∧
    (getResponse env t s ("1990-05-14")).1.userDob = some ("1990-05-14") ∧
    (getResponse env t s ("1990-05-14")).1.emitted = s.emitted ++ [categoryMenu env] := by
  have hv : validDate ("1990-05-14") = true := by decide
  refine ⟨fun m => ?_, fun m hm => ?_, by decide, by decide, by decide, hv, ?_, ?_⟩
  · by_cases hm : validDate m
    · simp [getResponse, h, hm, promptCategory]
    · simp [getResponse, h, hm]
  · simp [getResponse, h, hm]
  · simp [getResponse, h, hv, promptCategory]
  · simp [getResponse, h, hv, promptCategory]

/-- C5 witness: a concrete AskDateOfBirth session accepts "1990-05-14"
and rejects "2025-02-30". -/
theorem C5_witness :
    (getResponse stubEnv 3 { state := BotState.askDob } "1990-05-14").1.state
        = BotState.categoryPrompt ∧
    (getResponse stubEnv 3 { state := BotState.askDob } "2025-02-30").1.state
        = BotState.askDob :=
  ⟨((C5_date_validation stubEnv 3 { state := BotState.askDob } rfl).1 ("1990-05-14")).mpr
      (by decide),
   (C5_date_validation stubEnv 3 { state := BotState.askDob } rfl).2.1 ("2025-02-30")
      (by decide)⟩

/-- C6: in CategoryPrompt with the nine-category list the input is read as
a 1-based index: "9" selects the last category, loads its reference text
and advances to QuestionPrompt; "0", "10" and "abc" re-prompt without
advancing; in general the machine advances exactly on an integer between
1 and 9. -/
theorem C6_category_selection (store : String → String) (llm : String → String → String)
    (t : Nat) (s : Session) (h : s.state = .categoryPrompt) :
    ((getResponse (mkEnv9 store llm) t s ("9")).1.state = .questionPrompt) ∧
    ((getResponse (mkEnv9 store llm) t s ("9")).1.selectedCategory = some ("Real Estate")) ∧
    ((getResponse (mkEnv9 store llm) t s ("9")).1.data = store ("real-estate")) ∧
    ((getResponse (mkEnv9 store llm) t s ("0")).1.state = .categoryPrompt) ∧
    ((getResponse (mkEnv9 store llm) t s ("10")).1.state = .categoryPrompt) ∧
    ((getResponse (mkEnv9 store llm) t s ("abc")).1.state = .categoryPrompt) ∧
    (∀ m, (getResponse (mkEnv9 store llm) t s m).1.state = .questionPrompt ↔
       ∃ n, pyInt m = some n ∧ 1 ≤ n ∧ n ≤ 9) := by
  have h9 : pyInt ("9") = some 9 := by decide
  have h0 : pyInt ("0") = some 0 := by decide
  have h10 : pyInt ("10") = some 10 := by decide
  have habc : pyInt ("abc") = none := by decide
  refine ⟨?_, ?_, ?_, ?_, ?_, ?_, fun m => ?_⟩
  · simp [getResponse, h, mkEnv9, h9, categories9]
  · simp [getResponse, h, mkEnv9, h9, categories9]
    decide
  · simp [getResponse, h, mkEnv9, h9, categories9]
  · simp [getResponse, h, mkEnv9, h0, categories9]
  · simp [getResponse, h, mkEnv9, h10, categories9]
  · simp [getResponse, h, mkEnv9, habc]
  · cases hpi : pyInt m with
    | none => simp [getResponse, h, mkEnv9, hpi]
    | some n =>
      by_cases hr : (0 : Int) ≤ n - 1 ∧ n - 1 < (categories9.length : Int)
      · simp only [getResponse, h, mkEnv9, hpi]
        rw [if_pos hr]
        simp [categories9] at hr ⊢
        omega
      · simp only [getResponse, h, mkEnv9, hpi]
        rw [if_neg hr]
        simp [categories9] at hr ⊢
        omega

/-- C6 witness: a concrete CategoryPrompt session with nine categories. -/
theorem C6_witness :
    (getResponse (mkEnv9 (fun _ => "") (fun _ _ => "")) 0
        { state := BotState.categoryPrompt } "9").1.state = BotState.questionPrompt ∧
    (getResponse (mkEnv9 (fun _ => "") (fun _ _ => "")) 0
        { state := BotState.categoryPrompt } "abc").1.state = BotState.categoryPrompt :=
  ⟨(C6_category_selection (fun _ => "") (fun _ _ => "") 0
      { state := BotState.categoryPrompt } rfl).1,
   (C6_category_selection (fun _ => "") (fun _ _ => "") 0
      { state := BotState.categoryPrompt } rfl).2.2.2.2.2.1⟩

/-- C7: in MoreHelpPrompt, an input whose lowercasing contains "yes" goes
back to QuestionPrompt, one containing "no" but not "yes" advances to the
feedback prompt, anything else re-prompts in place; and running the
yes-loop any number of times keeps returning to QuestionPrompt without
ever terminating the session. -/
theorem C7_more_help_loop (env : Env) (t : Nat) (q : String) (s : Session)
    (h : s.state = .moreHelpPrompt) (hd : s.destroyed = false) :
    (∀ m, strContains (lowerStr m) "yes" = true →
       (getResponse env t s m).1.state = .questionPrompt) ∧
    (∀ m, strContains (lowerStr m) "yes" = false →
       strContains (lowerStr m) "no" = true →
       (getResponse env t s m).1.state = .captureFeedback) ∧
    (∀ m, strContains (lowerStr m) "yes" = false →
       strContains (lowerStr m) "no" = false →
       (getResponse env t s m).1.state = .moreHelpPrompt) ∧
    (∀ N : Nat, ((yesLoop env t q)^[N] s).state = .moreHelpPrompt ∧
       ((yesLoop env t q)^[N] s).destroyed = false ∧
       (getResponse env t ((yesLoop env t q)^[N] s) "yes").1.state = .questionPrompt) := by
  refine ⟨fun m hy => ?_, fun m hy hn => ?_, fun m hy hn => ?_, fun N => ?_⟩
  · simp [getResponse, h, hy]
  · simp [getResponse, h, hy, hn]
  · simp [getResponse, h, hy, hn]
  · obtain ⟨h1, h2⟩ := yesLoop_iterate env t q s h hd N
    exact ⟨h1, h2, (getResponse_moreHelp_yes env t _ ("yes") h1 (by decide)).1⟩

/-- C7 witness: three loop iterations on a concrete session still sit at
MoreHelpPrompt with the session alive, and a yes answer from there goes
back to QuestionPrompt. -/
theorem C7_witness :
    ((yesLoop stubEnv 0 ("q"))^[3] { state := BotState.moreHelpPrompt }).state
        = BotState.moreHelpPrompt ∧
    ((yesLoop stubEnv 0 ("q"))^[3] { state := BotState.moreHelpPrompt }).destroyed = false ∧
    (getResponse stubEnv 0
        ((yesLoop stubEnv 0 ("q"))^[3] { state := BotState.moreHelpPrompt }) "yes").1.state
        = BotState.questionPrompt :=
  (C7_more_help_loop stubEnv 0 ("q") { state := BotState.moreHelpPrompt } rfl rfl).2.2.2 3

/-- C10: an input whose lowercase form contains both "yes" and "no" takes
the affirmative branch deterministically: the yes check has precedence, so
the machine returns to QuestionPrompt and never reaches the no path. -/
theorem C10_dual_match (env : Env) (t : Nat) (s : Session) (m : String)
    (h : s.state = .moreHelpPrompt)
    (hy : strContains (lowerStr m) "yes" = true)
    (hn : strContains (lowerStr m) "no" = true) :
    (getResponse env t s m).1.state = .questionPrompt ∧
    (getResponse env t s m).1.state ≠ .captureFeedback := by
  constructor <;> simp [getResponse, h, hy]

/-- C10 witness: the input "yes and no" contains both tokens and goes back
to QuestionPrompt. -/
theorem C10_witness :
    (getResponse stubEnv 0 { state := BotState.moreHelpPrompt } "yes and no").1.state
        = BotState.questionPrompt :=
  (C10_dual_match stubEnv 0 { state := BotState.moreHelpPrompt } "yes and no" rfl
      (by decide) (by decide)).1

/-- C1 counterexample: a CaptureFeedbackDetail turn emits one bot message
(the finalization thanks) without incrementing botTurnCount, so the
counter does not equal the number of bot messages emitted.  The starting
session has zero count and zero emitted messages, so they agreed before
the turn and disagree after it. -/
theorem C1_counterexample :
    (sendMessage stubEnv 5
        { state := BotState.captureDetails, startTime := some 2 } "ok").emitted.length = 1 ∧
    (sendMessage stubEnv 5
        { state := BotState.captureDetails, startTime := some 2 } "ok").botMessageCount = 0 ∧
    (1 : Nat) ≠ 0 :=
  ⟨rfl, rfl, by decide⟩

/-- C1 amended: userTurnCount counts exactly the accepted non-empty
submissions; botTurnCount increments exactly once per processed turn,
re-prompts included, except in CaptureFeedbackDetail and in the terminal
exit state, whose turns emit a message without counting it; moreover a
turn emits exactly one bot message except a turn with a valid date of
birth, which emits two (the menu and the confirmation) while counting
one - so botTurnCount can undercount the messages emitted. -/
theorem C1_turn_counters (env : Env) (t : Nat) (s : Session) (m : String) (h : m ≠ "") :
    (sendMessage env t s m).userMessageCount = s.userMessageCount + 1 ∧
    sendMessage env t s ("") = s ∧
    (sendMessage env t s m).botMessageCount =
      s.botMessageCount +
        (if s.state = BotState.captureDetails ∨ s.state = BotState.exit then 0 else 1) ∧
    (sendMessage env t s m).emitted.length =
      s.emitted.length +
        (if s.state = BotState.askDob ∧ validDate m = true then 2 else 1) := by
  have hsend : sendMessage env t s m =
      fetchBotResponse env t
        { s with userMessageCount := s.userMessageCount + 1
                 startTime := some ((s.startTime).getD t) } m := by
    simp [sendMessage, h]
  obtain ⟨hu, hb, he⟩ := fetchBotResponse_effects env t
    { s with userMessageCount := s.userMessageCount + 1
             startTime := some ((s.startTime).getD t) } m
  refine ⟨?_, by simp [sendMessage], ?_, ?_⟩
  · rw [hsend, hu]
  · rw [hsend, hb, getResponse_botCount]
  · rw [hsend, he, getResponse_emitted]
    split <;> simp

/-- C1 witness: a first nonempty submission raises userTurnCount to one. -/
theorem C1_witness :
    (sendMessage stubEnv 0 initSession ("Alice")).userMessageCount =
      initSession.userMessageCount + 1 :=
  (C1_turn_counters stubEnv 0 initSession ("Alice") (by decide)).1

/-- C3: the scripted end-to-end session against the nine categories and
the stub completion collaborator starts at AskName, ends in the terminal
exit state, appends exactly one record whose sentiment is the positive
"good", selects the first enumerated category, and counts seven user
turns. -/
theorem C3_end_to_end :
    initSession.state = BotState.askName ∧
    (runInputs stubEnv 42 initSession e2eInputs).state = BotState.exit ∧
    (runInputs stubEnv 42 initSession e2eInputs).savedRecords.length = 1 ∧
    (runInputs stubEnv 42 initSession e2eInputs).feedback = some ("yes") ∧
    ((runInputs stubEnv 42 initSession e2eInputs).savedRecords.headD default).feedback
      = "good" ∧
    (runInputs stubEnv 42 initSession e2eInputs).selectedCategory
      = some (displayLabel (categories9.headD (""))) ∧
    (runInputs stubEnv 42 initSession e2eInputs).userMessageCount = 7 :=
  ⟨rfl, rfl, rfl, rfl, rfl, rfl, rfl⟩

/-- C8 counterexample: the detail text is stored lowercased, not as
submitted: the input "ABC" is recorded as "abc". -/
theorem C8_counterexample :
    (getResponse stubEnv 7
        { state := BotState.captureDetails, startTime := some 2 } "ABC").1.detailedFeedback
      = some ("abc") ∧
    ("abc" : String) ≠ "ABC" :=
  ⟨rfl, by decide⟩

/-- C8 amended: in CaptureFeedbackDetail every input is accepted and
stored lowercased as the feedback detail, the session is finalized with
duration now minus startedAt, exactly one record is handed to the
recorder, and the state advances to the terminal exit state. -/
theorem C8_capture_details (env : Env) (t t0 : Nat) (s : Session) (m : String)
    (h : s.state = BotState.captureDetails) (hst : s.startTime = some t0) :
    (getResponse env t s m).1.detailedFeedback = some (lowerStr m) ∧
    (getResponse env t s m).1.state = BotState.exit ∧
    (getResponse env t s m).1.savedRecords =
      s.savedRecords ++
        [mkRecord { s with detailedFeedback := some (lowerStr m) } t (t - t0)] := by
  refine ⟨?_, ?_, ?_⟩ <;> simp [getResponse, h, saveToCsv, hst]

/-- C8 witness: a concrete CaptureFeedbackDetail turn terminates the
session. -/
theorem C8_witness :
    (getResponse stubEnv 7
        { state := BotState.captureDetails, startTime := some 2 } "Great").1.state
      = BotState.exit :=
  (C8_capture_details stubEnv 7 2
      { state := BotState.captureDetails, startTime := some 2 } "Great" rfl rfl).2.1

/-- C9: starting from an absent backing store, any nonempty run of
appends produces exactly one header row followed by the appended data
rows in order, with the header never rewritten. -/
theorem C9_header_once (rows : List (List String)) (h : rows ≠ []) :
    saveRows none rows = some (csvHeader :: rows) := by
  cases rows with
  | nil => exact absurd rfl h
  | cons r rs =>
    have step : saveRows none (r :: rs) = saveRows (some [csvHeader, r]) rs := rfl
    rw [step, saveRows_some]
    rfl

/-- C9 witness: two appends to a fresh store yield the header and the two
rows. -/
theorem C9_witness :
    saveRows none [["x"], ["y"]] = some (csvHeader :: [["x"], ["y"]]) :=
  C9_header_once [["x"], ["y"]] (by simp)

end ChatMTL
